import Mathlib

/-!
Shallow embedding of the client-side statistics helpers of the trends-app
repository (`src/frontend/src/services/trends.tsx`), of the analysis-export
object builder (`src/components/analysis/AnalysisDetail.tsx`), and of the
client-side JWT authentication check (`src/services/auth.tsx`).

JavaScript numbers are modelled as real numbers; `Array.prototype.reduce`
with a `+` accumulator is modelled as `List.foldl`; `Math.sqrt` as
`Real.sqrt`; `Math.abs` as `|·|`; `Math.min`/`Math.max` as `min`/`max`.
-/

namespace Trends

/-- The five trend-type labels of `analyzeTrendPattern`
(`'exponential' | 'linear' | 'seasonal' | 'volatile' | 'stable'`). -/
inductive TrendType
  | exponential
  | linear
  | seasonal
  | volatile
  | stable
deriving DecidableEq

/-- The `TrendData` interface of `trends.tsx` (the fields used by the
analysis helpers). -/
structure TrendData where
  keyword : String
  search_volume : List ℝ
  timestamps : List String
  geo : String
  timeframe : String

/-- The record returned by `analyzeTrendPattern`; the optional
`seasonal_strength` field (`number | undefined`) is an `Option ℝ`. -/
structure PatternResult where
  trend_type : TrendType
  growth_rate : ℝ
  volatility : ℝ
  seasonal_strength : Option ℝ

/-- JS `values.reduce((sum, val) => sum + val, 0)`. -/
def sumList (values : List ℝ) : ℝ :=
  values.foldl (fun sum val => sum + val) 0

/-- The mean computed by `analyzeTrendPattern`, `detectSeasonality` and
`calculateSeasonalStrength`:
`values.reduce((sum, val) => sum + val, 0) / values.length`. -/
noncomputable def mean (values : List ℝ) : ℝ :=
  sumList values / values.length

/-- The variance computed by `analyzeTrendPattern` and `detectSeasonality`:
`values.reduce((sum, val) => sum + Math.pow(val - mean, 2), 0) / values.length`. -/
noncomputable def variance (values : List ℝ) : ℝ :=
  values.foldl (fun sum val => sum + (val - mean values) ^ 2) 0 / values.length

/-- The textbook population variance (sum of squared deviations from the
mean over the number of observations), as the spec phrases it. -/
noncomputable def populationVariance (values : List ℝ) : ℝ :=
  ((values.map (fun val => (val - mean values) ^ 2)).sum) / values.length

/-- The volatility (coefficient of variation) computed by
`analyzeTrendPattern`:
`mean !== 0 ? Math.sqrt(variance) / mean : 0`. -/
noncomputable def volatility (values : List ℝ) : ℝ :=
  if mean values ≠ 0 then Real.sqrt (variance values) / mean values else 0

/-- The growth rate computed by `analyzeTrendPattern`. `values[0] || 0`
and `values[values.length - 1] || 0` are modelled by `List.getD` with
default `0`: for an in-range index the two agree (`x || 0 = x` for
`x ≠ 0`, and `0 || 0 = 0`), and out of range `undefined || 0 = 0`. -/
noncomputable def growthRate (values : List ℝ) : ℝ :=
  if values.getD 0 0 ≠ 0 then
    (values.getD (values.length - 1) 0 - values.getD 0 0) / values.getD 0 0 * 100
  else 0

/-- The normalized lag-autocorrelation computed inside `detectSeasonality`
for one period: the loop accumulates
`(values[i] - mean) * (values[i + period] - mean)` for
`0 ≤ i < values.length - period`, and the result is
`Math.abs(correlation / ((values.length - period) * variance))`. -/
noncomputable def lagCorrelation (values : List ℝ) (period : ℕ) : ℝ :=
  |(∑ i ∈ Finset.range (values.length - period),
      (values.getD i 0 - mean values) * (values.getD (i + period) 0 - mean values)) /
    (((values.length : ℝ) - (period : ℝ)) * variance values)|

/-- The lag-autocorrelation as the spec phrases it: the sum over `i` of
`(v[i] − mean)(v[i + lag] − mean)`, divided by `(length − lag)` times the
population variance, taken in absolute value. -/
noncomputable def specLagAutocorrelation (values : List ℝ) (lag : ℕ) : ℝ :=
  |(∑ i ∈ Finset.range (values.length - lag),
      (values.getD i 0 - mean values) * (values.getD (i + lag) 0 - mean values)) /
    (((values.length : ℝ) - (lag : ℝ)) * populationVariance values)|

/-- The `maxCorrelation` accumulator of `detectSeasonality`: starting from
`0`, `periods.forEach` over `[7, 30]` updates it with
`Math.max(maxCorrelation, correlation)` whenever
`values.length >= period * 2`. -/
noncomputable def maxCorrelation (values : List ℝ) : ℝ :=
  [7, 30].foldl
    (fun maxCorr period =>
      if values.length ≥ period * 2 then max maxCorr (lagCorrelation values period)
      else maxCorr)
    0

/-- The `detectSeasonality` helper of `trends.tsx`: `false` for fewer than
12 observations, `false` for zero variance, otherwise
`maxCorrelation > 0.3`. -/
noncomputable def detectSeasonality (values : List ℝ) : Bool :=
  if values.length < 12 then false
  else if variance values = 0 then false
  else decide (maxCorrelation values > 0.3)

/-- The `calculateSeasonalStrength` helper of `trends.tsx`: `0` for fewer
than 12 observations, else the average absolute deviation from the mean,
divided by the mean and capped at 1 by `Math.min`, with `0` when the mean
is `0`. -/
noncomputable def calculateSeasonalStrength (values : List ℝ) : ℝ :=
  if values.length < 12 then 0
  else
    let deviations := values.map (fun val => |val - mean values|)
    let avgDeviation := sumList deviations / (deviations.length : ℝ)
    if mean values ≠ 0 then min (avgDeviation / mean values) 1 else 0

/-- The mean absolute deviation from the series mean, as the spec phrases
it. -/
noncomputable def meanAbsDeviation (values : List ℝ) : ℝ :=
  ((values.map (fun val => |val - mean values|)).sum) / values.length

/-- The `trendType` classification chain of `analyzeTrendPattern`
(first matching rule wins): volatile / exponential / linear / seasonal /
stable. -/
noncomputable def classifyTrend (growthRateV volatilityV : ℝ)
    (seasonalDetected : Bool) : TrendType :=
  if volatilityV > 0.5 then TrendType.volatile
  else if |growthRateV| > 50 then TrendType.exponential
  else if |growthRateV| > 10 then TrendType.linear
  else if seasonalDetected then TrendType.seasonal
  else TrendType.stable

/-- The `analyzeTrendPattern` method of `trends.tsx`: early return for
fewer than 2 observations, then growth rate, volatility, the
first-match-wins classification chain, and the optional seasonal
strength. -/
noncomputable def analyzeTrendPattern (data : TrendData) : PatternResult :=
  let values := data.search_volume
  if values.length < 2 then
    { trend_type := TrendType.stable, growth_rate := 0, volatility := 0,
      seasonal_strength := none }
  else
    let growthRateV := growthRate values
    let volatilityV := volatility values
    let trendType : TrendType :=
      classifyTrend growthRateV volatilityV (detectSeasonality values)
    { trend_type := trendType, growth_rate := growthRateV, volatility := volatilityV,
      seasonal_strength :=
        if trendType = TrendType.seasonal then some (calculateSeasonalStrength values)
        else none }

/-! ### Basic lemmas about the folds -/

lemma foldl_add_map (f : ℝ → ℝ) (l : List ℝ) (a : ℝ) :
    l.foldl (fun sum val => sum + f val) a = a + (l.map f).sum := by
  induction l generalizing a with
  | nil => simp
  | cons v t ih => simp [List.foldl_cons, ih, add_assoc]

lemma sumList_eq_sum (l : List ℝ) : sumList l = l.sum := by
  have h := foldl_add_map (fun val => val) l 0
  simpa [sumList] using h

lemma variance_eq_populationVariance (l : List ℝ) :
    variance l = populationVariance l := by
  unfold variance populationVariance
  rw [foldl_add_map]
  simp

lemma variance_nonneg (l : List ℝ) : 0 ≤ variance l := by
  rw [variance_eq_populationVariance]
  apply div_nonneg
  · apply List.sum_nonneg
    intro x hx
    obtain ⟨v, _, rfl⟩ := List.mem_map.mp hx
    positivity
  · positivity

lemma sum_of_const {l : List ℝ} {c : ℝ} (h : ∀ x ∈ l, x = c) :
    l.sum = l.length * c := by
  induction l with
  | nil => simp
  | cons a t ih =>
      have ha : a = c := h a (List.mem_cons_self a t)
      have ht : ∀ x ∈ t, x = c := fun x hx => h x (List.mem_cons_of_mem a hx)
      rw [List.sum_cons, ha, ih ht, List.length_cons]
      push_cast
      ring

lemma mean_const {l : List ℝ} {c : ℝ} (hne : l ≠ []) (h : ∀ x ∈ l, x = c) :
    mean l = c := by
  have h0 : l.length ≠ 0 := by simpa [List.length_eq_zero] using hne
  unfold mean
  rw [sumList_eq_sum, sum_of_const h]
  have h0' : (l.length : ℝ) ≠ 0 := Nat.cast_ne_zero.mpr h0
  field_simp

lemma variance_const {l : List ℝ} {c : ℝ} (hne : l ≠ []) (h : ∀ x ∈ l, x = c) :
    variance l = 0 := by
  rw [variance_eq_populationVariance]
  unfold populationVariance
  have hm := mean_const hne h
  have hz : (l.map (fun val => (val - mean l) ^ 2)).sum = 0 := by
    apply List.sum_eq_zero
    intro x hx
    obtain ⟨v, hv, rfl⟩ := List.mem_map.mp hx
    rw [h v hv, hm]
    ring
  rw [hz]
  simp

lemma sign_div_mul_hundred {x f : ℝ} (hf : 0 < f) :
    Real.sign (x / f * 100) = Real.sign x := by
  rcases lt_trichotomy x 0 with hx | hx | hx
  · rw [Real.sign_of_neg hx, Real.sign_of_neg]
    have hq : x / f < 0 := div_neg_of_neg_of_pos hx hf
    nlinarith
  · rw [hx]
    simp [Real.sign_zero]
  · rw [Real.sign_of_pos hx, Real.sign_of_pos]
    have hq : 0 < x / f := div_pos hx hf
    nlinarith

lemma classifyTrend_ne_volatile {g vol : ℝ} {s : Bool} (hv : ¬ vol > 0.5) :
    classifyTrend g vol s ≠ TrendType.volatile := by
  by_cases h1 : |g| > 50
  · simp [classifyTrend, hv, h1]
  · by_cases h2 : |g| > 10
    · simp [classifyTrend, hv, h1, h2]
    · by_cases h3 : s
      · simp [classifyTrend, hv, h1, h2, h3]
      · simp [classifyTrend, hv, h1, h2, h3]

lemma analyzeTrendPattern_of_ge (data : TrendData)
    (h : ¬ data.search_volume.length < 2) :
    analyzeTrendPattern data =
      { trend_type := classifyTrend (growthRate data.search_volume)
          (volatility data.search_volume) (detectSeasonality data.search_volume),
        growth_rate := growthRate data.search_volume,
        volatility := volatility data.search_volume,
        seasonal_strength :=
          if classifyTrend (growthRate data.search_volume)
              (volatility data.search_volume) (detectSeasonality data.search_volume)
              = TrendType.seasonal
          then some (calculateSeasonalStrength data.search_volume)
          else none } := by
  simp [analyzeTrendPattern, h]

/-! ### Sample inputs -/

/-- A two-observation all-zero series. -/
def sampleFlat : TrendData := ⟨"flat", [0, 0], [], "US", "today 3-m"⟩

/-- An empty series. -/
def sampleEmpty : TrendData := ⟨"empty", [], [], "US", "today 3-m"⟩

/-- A two-observation rising series. -/
def sampleRising : TrendData := ⟨"rising", [1, 3], [], "US", "today 3-m"⟩

/-- A two-observation constant positive series. -/
def sampleConst : TrendData := ⟨"const", [5, 5], [], "US", "today 3-m"⟩

/-! ### Claims about `analyzeTrendPattern` -/

/-- C1: for every series of length ≥ 2, the trend type is assigned by the
first matching rule in the fixed order volatility > 0.5 → volatile, else
|growth rate| > 50 → exponential, else |growth rate| > 10 → linear, else
seasonality detected → seasonal, else stable; in particular volatility
> 0.5 always yields `volatile`. -/
theorem claim1_classification_precedence (data : TrendData)
    (h : 2 ≤ data.search_volume.length) :
    ((analyzeTrendPattern data).trend_type =
      (if volatility data.search_volume > 0.5 then TrendType.volatile
       else if |growthRate data.search_volume| > 50 then TrendType.exponential
       else if |growthRate data.search_volume| > 10 then TrendType.linear
       else if detectSeasonality data.search_volume then TrendType.seasonal
       else TrendType.stable)) ∧
    (volatility data.search_volume > 0.5 →
      (analyzeTrendPattern data).trend_type = TrendType.volatile) := by
  have h' : ¬ data.search_volume.length < 2 := by omega
  rw [analyzeTrendPattern_of_ge data h']
  refine ⟨rfl, fun hv => ?_⟩
  simp [classifyTrend, hv]

/-- Witness for C1 at the concrete two-observation series `[0, 0]`. -/
theorem claim1_witness :
    2 ≤ sampleFlat.search_volume.length ∧
      (((analyzeTrendPattern sampleFlat).trend_type =
        (if volatility sampleFlat.search_volume > 0.5 then TrendType.volatile
         else if |growthRate sampleFlat.search_volume| > 50 then TrendType.exponential
         else if |growthRate sampleFlat.search_volume| > 10 then TrendType.linear
         else if detectSeasonality sampleFlat.search_volume then TrendType.seasonal
         else TrendType.stable)) ∧
      (volatility sampleFlat.search_volume > 0.5 →
        (analyzeTrendPattern sampleFlat).trend_type = TrendType.volatile)) :=
  ⟨by simp [sampleFlat], claim1_classification_precedence sampleFlat (by simp [sampleFlat])⟩

/-- C2: for every series of fewer than 2 observations the result is the
fixed record with trend type `stable`, growth rate 0, volatility 0 and no
seasonal strength. -/
theorem claim2_degenerate_series (data : TrendData)
    (h : data.search_volume.length < 2) :
    analyzeTrendPattern data =
      { trend_type := TrendType.stable, growth_rate := 0, volatility := 0,
        seasonal_strength := none } := by
  simp [analyzeTrendPattern, h]

/-- Witness for C2 at the concrete empty series. -/
theorem claim2_witness :
    sampleEmpty.search_volume.length < 2 ∧
      analyzeTrendPattern sampleEmpty =
        { trend_type := TrendType.stable, growth_rate := 0, volatility := 0,
          seasonal_strength := none } :=
  ⟨by simp [sampleEmpty], claim2_degenerate_series sampleEmpty (by simp [sampleEmpty])⟩

/-- C3: for every series of length ≥ 2 the returned growth rate is
`(last − first) / first × 100` when the first observation is nonzero and
exactly `0` when the first observation is `0`; for non-negative
observations with nonzero first observation, its sign equals the sign of
`last − first`. -/
theorem claim3_growth_rate (data : TrendData)
    (h : 2 ≤ data.search_volume.length) :
    (data.search_volume.getD 0 0 ≠ 0 →
      (analyzeTrendPattern data).growth_rate =
        (data.search_volume.getD (data.search_volume.length - 1) 0 -
          data.search_volume.getD 0 0) / data.search_volume.getD 0 0 * 100) ∧
    (data.search_volume.getD 0 0 = 0 →
      (analyzeTrendPattern data).growth_rate = 0) ∧
    ((∀ x ∈ data.search_volume, 0 ≤ x) → data.search_volume.getD 0 0 ≠ 0 →
      Real.sign ((analyzeTrendPattern data).growth_rate) =
        Real.sign (data.search_volume.getD (data.search_volume.length - 1) 0 -
          data.search_volume.getD 0 0)) := by
  have h' : ¬ data.search_volume.length < 2 := by omega
  have hgr : (analyzeTrendPattern data).growth_rate = growthRate data.search_volume := by
    rw [analyzeTrendPattern_of_ge data h']
  rw [hgr]
  refine ⟨fun hne => ?_, fun heq => ?_, fun hnn hne => ?_⟩
  · rw [growthRate, if_pos hne]
  · rw [growthRate, if_neg (not_not_intro heq)]
  · have hmem : data.search_volume.getD 0 0 ∈ data.search_volume := by
      obtain ⟨a, rest, hv⟩ : ∃ a rest, data.search_volume = a :: rest := by
        cases hl : data.search_volume with
        | nil => rw [hl] at h; simp at h
        | cons a rest => exact ⟨a, rest, rfl⟩
      rw [hv]
      simp
    have hpos : 0 < data.search_volume.getD 0 0 :=
      lt_of_le_of_ne (hnn _ hmem) (Ne.symm hne)
    rw [growthRate, if_pos hne]
    exact sign_div_mul_hundred hpos

/-- Witness for C3 at the concrete series `[1, 3]`. -/
theorem claim3_witness :
    2 ≤ sampleRising.search_volume.length ∧
      ((sampleRising.search_volume.getD 0 0 ≠ 0 →
        (analyzeTrendPattern sampleRising).growth_rate =
          (sampleRising.search_volume.getD (sampleRising.search_volume.length - 1) 0 -
            sampleRising.search_volume.getD 0 0) /
            sampleRising.search_volume.getD 0 0 * 100) ∧
      (sampleRising.search_volume.getD 0 0 = 0 →
        (analyzeTrendPattern sampleRising).growth_rate = 0) ∧
      ((∀ x ∈ sampleRising.search_volume, 0 ≤ x) →
        sampleRising.search_volume.getD 0 0 ≠ 0 →
        Real.sign ((analyzeTrendPattern sampleRising).growth_rate) =
          Real.sign (sampleRising.search_volume.getD
            (sampleRising.search_volume.length - 1) 0 -
            sampleRising.search_volume.getD 0 0))) :=
  ⟨by simp [sampleRising], claim3_growth_rate sampleRising (by simp [sampleRising])⟩

/-- C4: for every series of length ≥ 2 the returned volatility is the
population standard deviation divided by the mean (0 when the mean is 0);
a constant positive series has volatility 0 and is never classified
`volatile`. -/
theorem claim4_volatility (data : TrendData) (c : ℝ)
    (h : 2 ≤ data.search_volume.length) :
    (mean data.search_volume ≠ 0 →
      (analyzeTrendPattern data).volatility =
        Real.sqrt (populationVariance data.search_volume) /
          mean data.search_volume) ∧
    (mean data.search_volume = 0 → (analyzeTrendPattern data).volatility = 0) ∧
    ((∀ x ∈ data.search_volume, x = c) → 0 < c →
      (analyzeTrendPattern data).volatility = 0 ∧
        (analyzeTrendPattern data).trend_type ≠ TrendType.volatile) := by
  have h' : ¬ data.search_volume.length < 2 := by omega
  have hvol : (analyzeTrendPattern data).volatility = volatility data.search_volume := by
    rw [analyzeTrendPattern_of_ge data h']
  have htt : (analyzeTrendPattern data).trend_type =
      classifyTrend (growthRate data.search_volume) (volatility data.search_volume)
        (detectSeasonality data.search_volume) := by
    rw [analyzeTrendPattern_of_ge data h']
  rw [hvol, htt]
  refine ⟨fun hne => ?_, fun heq => ?_, fun hc hcpos => ?_⟩
  · simp [volatility, hne, variance_eq_populationVariance]
  · simp [volatility, heq]
  · have hnil : data.search_volume ≠ [] := by
      intro hn
      rw [hn] at h
      simp at h
    have hm : mean data.search_volume = c := mean_const hnil hc
    have hv0 : variance data.search_volume = 0 := variance_const hnil hc
    have hvz : volatility data.search_volume = 0 := by
      simp [volatility, hm, hv0, Real.sqrt_zero, hcpos.ne']
    refine ⟨hvz, ?_⟩
    rw [hvz]
    exact classifyTrend_ne_volatile (by norm_num)

/-- Witness for C4 at the concrete constant series `[5, 5]`. -/
theorem claim4_witness :
    2 ≤ sampleConst.search_volume.length ∧
      ((mean sampleConst.search_volume ≠ 0 →
        (analyzeTrendPattern sampleConst).volatility =
          Real.sqrt (populationVariance sampleConst.search_volume) /
            mean sampleConst.search_volume) ∧
      (mean sampleConst.search_volume = 0 →
        (analyzeTrendPattern sampleConst).volatility = 0) ∧
      ((∀ x ∈ sampleConst.search_volume, x = (5 : ℝ)) → (0 : ℝ) < 5 →
        (analyzeTrendPattern sampleConst).volatility = 0 ∧
          (analyzeTrendPattern sampleConst).trend_type ≠ TrendType.volatile)) :=
  ⟨by simp [sampleConst], claim4_volatility sampleConst 5 (by simp [sampleConst])⟩

lemma lagCorrelation_eq_spec (values : List ℝ) (lag : ℕ) :
    lagCorrelation values lag = specLagAutocorrelation values lag := by
  unfold lagCorrelation specLagAutocorrelation
  rw [variance_eq_populationVariance]

lemma detectSeasonality_eq_of (values : List ℝ)
    (h12 : ¬ values.length < 12) (hv : variance values ≠ 0) :
    detectSeasonality values = decide (maxCorrelation values > 0.3) := by
  unfold detectSeasonality
  rw [if_neg h12, if_neg hv]

lemma maxCorrelation_of_lt14 (values : List ℝ) (h : values.length < 14) :
    maxCorrelation values = 0 := by
  unfold maxCorrelation
  have h7 : ¬ values.length ≥ 7 * 2 := by omega
  have h30 : ¬ values.length ≥ 30 * 2 := by omega
  simp [List.foldl_cons, List.foldl_nil, h7, h30]

lemma detectSeasonality_false_of_lt14 (values : List ℝ)
    (h : values.length < 14) : detectSeasonality values = false := by
  unfold detectSeasonality
  by_cases h12 : values.length < 12
  · rw [if_pos h12]
  · rw [if_neg h12]
    by_cases hv : variance values = 0
    · rw [if_pos hv]
    · rw [if_neg hv, maxCorrelation_of_lt14 values h]
      exact decide_eq_false (by norm_num)

lemma classifyTrend_seasonal_detect {g vol : ℝ} {s : Bool}
    (h : classifyTrend g vol s = TrendType.seasonal) : s = true := by
  by_cases h1 : vol > 0.5
  · simp [classifyTrend, h1] at h
  · by_cases h2 : |g| > 50
    · simp [classifyTrend, h1, h2] at h
    · by_cases h3 : |g| > 10
      · simp [classifyTrend, h1, h2, h3] at h
      · by_cases h4 : s
        · exact h4
        · simp [classifyTrend, h1, h2, h3, h4] at h

/-- C5: seasonality detection is false for fewer than 12 observations and
for zero variance; otherwise it holds exactly when some lag in {7, 30}
with `length ≥ 2·lag` has normalized absolute lag-autocorrelation (the
centered lag product sum divided by `(length − lag)` times the population
variance, in absolute value) exceeding 0.3 — that is, when the maximum of
these values exceeds 0.3. -/
theorem claim5_detect_seasonality (values : List ℝ) :
    (values.length < 12 → detectSeasonality values = false) ∧
    (variance values = 0 → detectSeasonality values = false) ∧
    (12 ≤ values.length → variance values ≠ 0 →
      (detectSeasonality values = true ↔
        (2 * 7 ≤ values.length ∧ specLagAutocorrelation values 7 > 0.3) ∨
        (2 * 30 ≤ values.length ∧ specLagAutocorrelation values 30 > 0.3))) := by
  refine ⟨fun h12 => ?_, fun hv => ?_, fun h12 hv => ?_⟩
  · unfold detectSeasonality
    rw [if_pos h12]
  · unfold detectSeasonality
    by_cases h12 : values.length < 12
    · rw [if_pos h12]
    · rw [if_neg h12, if_pos hv]
  · rw [detectSeasonality_eq_of values (by omega) hv, decide_eq_true_eq,
      ← lagCorrelation_eq_spec, ← lagCorrelation_eq_spec]
    unfold maxCorrelation
    by_cases h7 : values.length ≥ 7 * 2
    · by_cases h30 : values.length ≥ 30 * 2
      · simp only [List.foldl_cons, List.foldl_nil, if_pos h7, if_pos h30]
        rw [gt_iff_lt, lt_max_iff, lt_max_iff]
        constructor
        · rintro ((habs | hc7) | hc30)
          · exact absurd habs (by norm_num)
          · exact Or.inl ⟨by omega, hc7⟩
          · exact Or.inr ⟨by omega, hc30⟩
        · rintro (⟨_, hc7⟩ | ⟨_, hc30⟩)
          · exact Or.inl (Or.inr hc7)
          · exact Or.inr hc30
      · simp only [List.foldl_cons, List.foldl_nil, if_pos h7, if_neg h30]
        rw [gt_iff_lt, lt_max_iff]
        constructor
        · rintro (habs | hc7)
          · exact absurd habs (by norm_num)
          · exact Or.inl ⟨by omega, hc7⟩
        · rintro (⟨_, hc7⟩ | ⟨h60, _⟩)
          · exact Or.inr hc7
          · exact absurd h60 (by omega)
    · have h30 : ¬ values.length ≥ 30 * 2 := by omega
      simp only [List.foldl_cons, List.foldl_nil, if_neg h7, if_neg h30]
      constructor
      · intro habs
        exact absurd habs (by norm_num)
      · rintro (⟨h14, _⟩ | ⟨h60, _⟩)
        · exact absurd h14 (by omega)
        · exact absurd h60 (by omega)

/-- Witness for C5 at the concrete empty series. -/
theorem claim5_witness :
    ([] : List ℝ).length < 12 ∧ detectSeasonality ([] : List ℝ) = false :=
  ⟨by simp, (claim5_detect_seasonality []).1 (by simp)⟩

/-- C10: no series of length 12 or 13 ever detects seasonality (no lag
qualifies, since lag 7 needs length ≥ 14 and lag 30 needs length ≥ 60),
so the `seasonal` classification is only reachable from length ≥ 14. -/
theorem claim10_seasonal_needs_14 :
    (∀ values : List ℝ, values.length = 12 ∨ values.length = 13 →
      detectSeasonality values = false) ∧
    (∀ data : TrendData,
      (analyzeTrendPattern data).trend_type = TrendType.seasonal →
        14 ≤ data.search_volume.length) := by
  constructor
  · intro values h
    exact detectSeasonality_false_of_lt14 values (by omega)
  · intro data hseasonal
    by_contra hlt
    push_neg at hlt
    by_cases h2 : data.search_volume.length < 2
    · simp [analyzeTrendPattern, h2] at hseasonal
    · have hc : classifyTrend (growthRate data.search_volume)
          (volatility data.search_volume)
          (detectSeasonality data.search_volume) = TrendType.seasonal := by
        rw [analyzeTrendPattern_of_ge data h2] at hseasonal
        exact hseasonal
      have hdet := classifyTrend_seasonal_detect hc
      rw [detectSeasonality_false_of_lt14 data.search_volume hlt] at hdet
      exact absurd hdet (by simp)

/-- Witness for C10 at the concrete constant series of length 13. -/
theorem claim10_witness :
    ((List.replicate 13 (1 : ℝ)).length = 12 ∨
      (List.replicate 13 (1 : ℝ)).length = 13) ∧
      detectSeasonality (List.replicate 13 (1 : ℝ)) = false :=
  ⟨Or.inr (by simp), claim10_seasonal_needs_14.1 _ (Or.inr (by simp))⟩

lemma detectSeasonality_true_ge_14 {values : List ℝ}
    (h : detectSeasonality values = true) : 14 ≤ values.length := by
  by_contra hlt
  push_neg at hlt
  rw [detectSeasonality_false_of_lt14 values hlt] at h
  exact absurd h (by simp)

lemma calculateSeasonalStrength_of_ge12 (values : List ℝ)
    (h : ¬ values.length < 12) :
    calculateSeasonalStrength values =
      if mean values ≠ 0 then min (meanAbsDeviation values / mean values) 1
      else 0 := by
  simp only [calculateSeasonalStrength, if_neg h, sumList_eq_sum,
    List.length_map, meanAbsDeviation]

lemma mean_nonneg_of_nonneg {values : List ℝ} (hnn : ∀ x ∈ values, 0 ≤ x) :
    0 ≤ mean values := by
  unfold mean
  apply div_nonneg
  · rw [sumList_eq_sum]
    exact List.sum_nonneg hnn
  · positivity

lemma meanAbsDeviation_nonneg (values : List ℝ) :
    0 ≤ meanAbsDeviation values := by
  unfold meanAbsDeviation
  apply div_nonneg
  · apply List.sum_nonneg
    intro x hx
    obtain ⟨v, _, rfl⟩ := List.mem_map.mp hx
    positivity
  · positivity

lemma calculateSeasonalStrength_bounds {values : List ℝ}
    (hnn : ∀ x ∈ values, 0 ≤ x) :
    0 ≤ calculateSeasonalStrength values ∧ calculateSeasonalStrength values ≤ 1 := by
  by_cases h12 : values.length < 12
  · unfold calculateSeasonalStrength
    rw [if_pos h12]
    norm_num
  · rw [calculateSeasonalStrength_of_ge12 values h12]
    by_cases hm : mean values ≠ 0
    · rw [if_pos hm]
      have hmpos : 0 < mean values :=
        lt_of_le_of_ne (mean_nonneg_of_nonneg hnn) (Ne.symm hm)
      constructor
      · exact le_min (div_nonneg (meanAbsDeviation_nonneg values) hmpos.le) (by norm_num)
      · exact min_le_right _ _
    · rw [if_neg hm]
      norm_num

/-- C6: the optional seasonal strength is present exactly when the
classification is `seasonal`; when present it equals the mean absolute
deviation from the mean divided by the mean, capped at 1 (0 when the mean
is 0); and for non-negative observations it lies within [0, 1]. -/
theorem claim6_seasonal_strength (data : TrendData) :
    ((analyzeTrendPattern data).seasonal_strength ≠ none ↔
      (analyzeTrendPattern data).trend_type = TrendType.seasonal) ∧
    ((analyzeTrendPattern data).trend_type = TrendType.seasonal →
      (analyzeTrendPattern data).seasonal_strength =
        some (if mean data.search_volume ≠ 0
          then min (meanAbsDeviation data.search_volume / mean data.search_volume) 1
          else 0)) ∧
    ((∀ x ∈ data.search_volume, 0 ≤ x) →
      ∀ s : ℝ, (analyzeTrendPattern data).seasonal_strength = some s →
        0 ≤ s ∧ s ≤ 1) := by
  by_cases h2 : data.search_volume.length < 2
  · refine ⟨?_, ?_, ?_⟩ <;> simp [analyzeTrendPattern, h2]
  · have htt : (analyzeTrendPattern data).trend_type =
        classifyTrend (growthRate data.search_volume)
          (volatility data.search_volume)
          (detectSeasonality data.search_volume) := by
      rw [analyzeTrendPattern_of_ge data h2]
    have hss : (analyzeTrendPattern data).seasonal_strength =
        (if classifyTrend (growthRate data.search_volume)
            (volatility data.search_volume)
            (detectSeasonality data.search_volume) = TrendType.seasonal
         then some (calculateSeasonalStrength data.search_volume)
         else none) := by
      rw [analyzeTrendPattern_of_ge data h2]
    rw [htt, hss]
    by_cases hs : classifyTrend (growthRate data.search_volume)
        (volatility data.search_volume)
        (detectSeasonality data.search_volume) = TrendType.seasonal
    · have hdet := classifyTrend_seasonal_detect hs
      have h14 := detectSeasonality_true_ge_14 hdet
      have h12 : ¬ data.search_volume.length < 12 := by omega
      refine ⟨by simp [hs], fun _ => ?_, fun hnn s hsome => ?_⟩
      · rw [if_pos hs, calculateSeasonalStrength_of_ge12 data.search_volume h12]
      · rw [if_pos hs] at hsome
        have hz : s = calculateSeasonalStrength data.search_volume :=
          (Option.some_injective ℝ hsome.symm)
        rw [hz]
        exact calculateSeasonalStrength_bounds hnn
    · refine ⟨by simp [hs], fun hcontra => absurd hcontra hs, fun hnn s hsome => ?_⟩
      rw [if_neg hs] at hsome
      exact absurd hsome (by simp)

/-- Witness for C6, extracting the presence-iff at the empty series. -/
theorem claim6_witness :
    (analyzeTrendPattern sampleEmpty).seasonal_strength ≠ none ↔
      (analyzeTrendPattern sampleEmpty).trend_type = TrendType.seasonal :=
  (claim6_seasonal_strength sampleEmpty).1

/-- The concrete series of the end-to-end scenario. -/
def sampleSeries : TrendData :=
  ⟨"sample", [10, 20, 30, 40, 50], [], "US", "today 3-m"⟩

lemma sampleSeries_mean : mean sampleSeries.search_volume = 30 := by
  unfold mean sumList
  simp [sampleSeries, List.foldl_cons, List.foldl_nil]
  norm_num

lemma sampleSeries_variance : variance sampleSeries.search_volume = 200 := by
  simp only [variance, sampleSeries_mean]
  simp [sampleSeries, List.foldl_cons, List.foldl_nil]
  norm_num

lemma sampleSeries_volatility :
    volatility sampleSeries.search_volume = Real.sqrt 200 / 30 := by
  unfold volatility
  rw [sampleSeries_variance, sampleSeries_mean, if_pos (by norm_num)]

lemma sqrt_200_le_15 : Real.sqrt 200 ≤ 15 := by
  have h := Real.sqrt_le_sqrt (by norm_num : (200 : ℝ) ≤ 225)
  have h225 : Real.sqrt 225 = 15 := by
    rw [show (225 : ℝ) = 15 ^ 2 by norm_num, Real.sqrt_sq (by norm_num : (0 : ℝ) ≤ 15)]
  rwa [h225] at h

lemma sampleSeries_growthRate : growthRate sampleSeries.search_volume = 400 := by
  unfold growthRate
  simp [sampleSeries]
  norm_num

/-- C7: the series `[10, 20, 30, 40, 50]` yields growth rate 400, a
volatility not exceeding 0.5, and the `exponential` classification. -/
theorem claim7_sample_series :
    (analyzeTrendPattern sampleSeries).growth_rate = 400 ∧
    (analyzeTrendPattern sampleSeries).volatility ≤ 0.5 ∧
    (analyzeTrendPattern sampleSeries).trend_type = TrendType.exponential := by
  have h2 : ¬ sampleSeries.search_volume.length < 2 := by simp [sampleSeries]
  have hvle : volatility sampleSeries.search_volume ≤ 0.5 := by
    rw [sampleSeries_volatility]
    calc Real.sqrt 200 / 30 ≤ 15 / 30 :=
          (div_le_div_iff_of_pos_right (by norm_num : (0 : ℝ) < 30)).mpr sqrt_200_le_15
    _ = 0.5 := by norm_num
  have hnotvol : ¬ volatility sampleSeries.search_volume > 0.5 := not_lt.mpr hvle
  have habs : |growthRate sampleSeries.search_volume| > 50 := by
    rw [sampleSeries_growthRate, abs_of_pos (by norm_num : (0 : ℝ) < 400)]
    norm_num
  have hgr : (analyzeTrendPattern sampleSeries).growth_rate =
      growthRate sampleSeries.search_volume := by
    rw [analyzeTrendPattern_of_ge sampleSeries h2]
  have hvol : (analyzeTrendPattern sampleSeries).volatility =
      volatility sampleSeries.search_volume := by
    rw [analyzeTrendPattern_of_ge sampleSeries h2]
  have htt : (analyzeTrendPattern sampleSeries).trend_type =
      classifyTrend (growthRate sampleSeries.search_volume)
        (volatility sampleSeries.search_volume)
        (detectSeasonality sampleSeries.search_volume) := by
    rw [analyzeTrendPattern_of_ge sampleSeries h2]
  refine ⟨?_, ?_, ?_⟩
  · rw [hgr, sampleSeries_growthRate]
  · rw [hvol]
    exact hvle
  · rw [htt]
    unfold classifyTrend
    rw [if_neg hnotvol, if_pos habs]

/-! ### Client-side JWT authentication check (`src/services/auth.tsx`) -/

/-- The `isAuthenticated` method of `auth.tsx`. `stored` models
`localStorage.getItem('authToken')` (`none` when no token is stored); the
JS falsy test `!token` also rejects the empty string. `parsePayloadExp`
models `JSON.parse(atob(token.split('.')[1])).exp`: `none` models a
thrown decode/parse error (caught, yielding `false`) or a
missing/non-numeric `exp` claim (in JS `undefined * 1000 > Date.now()`
is likewise false). `now` models `Date.now()`. -/
noncomputable def isAuthenticated (stored : Option String)
    (parsePayloadExp : String → Option ℝ) (now : ℝ) : Bool :=
  match stored with
  | none => false
  | some token =>
      if token = "" then false
      else
        match parsePayloadExp token with
        | none => false
        | some e => decide (e * 1000 > now)

/-- C9: the client-side authentication check accepts exactly a stored,
non-empty, parseable token whose `exp` claim times 1000 exceeds the
current time; a missing token, an unparseable token, or a non-future
expiry all yield `false`. -/
theorem claim9_is_authenticated (stored : Option String)
    (parsePayloadExp : String → Option ℝ) (now : ℝ) :
    isAuthenticated stored parsePayloadExp now = true ↔
      ∃ token, stored = some token ∧ token ≠ "" ∧
        ∃ e, parsePayloadExp token = some e ∧ e * 1000 > now := by
  cases stored with
  | none => simp [isAuthenticated]
  | some token =>
      by_cases ht : token = ""
      · simp [isAuthenticated, ht]
      · cases hp : parsePayloadExp token with
        | none => simp [isAuthenticated, ht, hp]
        | some e => simp [isAuthenticated, ht, hp, decide_eq_true_eq]

/-- Witness for C9 at a missing token. -/
theorem claim9_witness :
    isAuthenticated none (fun _ => none) 0 = true ↔
      ∃ token, (none : Option String) = some token ∧ token ≠ "" ∧
        ∃ e, (fun _ : String => (none : Option ℝ)) token = some e ∧ e * 1000 > 0 :=
  claim9_is_authenticated none (fun _ => none) 0

/-! ### The JSON export of an analysis (`AnalysisDetail.tsx`) -/

/-- JSON values, the target of `JSON.stringify`. -/
inductive Json where
  | null : Json
  | bool : Bool → Json
  | num : ℝ → Json
  | str : String → Json
  | arr : List Json → Json
  | obj : List (String × Json) → Json

/-- The `Analysis` prop of `AnalysisDetail` (the fields the export
uses, plus the rest of the interface). -/
structure Analysis where
  id : ℤ
  keywords : List String
  created_at : String
  status : String
  insights_count : ℤ
  timeframe : String
  geo : String

/-- The `pattern_analysis` member of `DetailedTrendData`: the result of
`analyzeTrendPattern`, with the trend type as its string label. -/
structure PatternSummary where
  trend_type : String
  growth_rate : ℝ
  volatility : ℝ
  seasonal_strength : Option ℝ

/-- The `DetailedTrendData` rows held in component state at export time
(the fields `exportAnalysis` reads; `pattern_analysis` is optional). -/
structure DetailedTrendData where
  keyword : String
  search_volume : List ℝ
  timestamps : List String
  geo : String
  timeframe : String
  pattern_analysis : Option PatternSummary

/-- The `TrendInsight` interface of `trends.tsx`. -/
structure TrendInsight where
  id : String
  type : String
  title : String
  description : String
  keywords : List String
  confidence : ℝ
  impact_score : ℝ
  timeframe : String
  created_at : String

/-- The `JSON.stringify` view of a pattern summary; the optional
`seasonal_strength` key is dropped when the field is `undefined`. -/
def PatternSummary.toJson (p : PatternSummary) : Json :=
  Json.obj
    ([("trend_type", Json.str p.trend_type),
      ("growth_rate", Json.num p.growth_rate),
      ("volatility", Json.num p.volatility)] ++
      (match p.seasonal_strength with
       | some s => [("seasonal_strength", Json.num s)]
       | none => []))

/-- The `JSON.stringify` view of a trend insight. -/
def TrendInsight.toJson (i : TrendInsight) : Json :=
  Json.obj
    [("id", Json.str i.id),
     ("type", Json.str i.type),
     ("title", Json.str i.title),
     ("description", Json.str i.description),
     ("keywords", Json.arr (i.keywords.map Json.str)),
     ("confidence", Json.num i.confidence),
     ("impact_score", Json.num i.impact_score),
     ("timeframe", Json.str i.timeframe),
     ("created_at", Json.str i.created_at)]

/-- One entry of the `trends` array built by `exportAnalysis`:
`{ keyword, total_volume, peak_volume, pattern }`. `total_volume` is
`search_volume.reduce((sum, val) => sum + val, 0)`; `peak_volume` is
`Math.max(...search_volume)`, where on an empty array `Math.max()` is
`-Infinity`, which `JSON.stringify` renders as `null`; the `pattern` key
is dropped when `pattern_analysis` is `undefined`. -/
noncomputable def exportTrendEntry (trend : DetailedTrendData) : Json :=
  Json.obj
    ([("keyword", Json.str trend.keyword),
      ("total_volume", Json.num (sumList trend.search_volume)),
      ("peak_volume",
        match trend.search_volume.max? with
        | some m => Json.num m
        | none => Json.null)] ++
      (match trend.pattern_analysis with
       | some p => [("pattern", p.toJson)]
       | none => []))

/-- The `calculateOverallStats` result, rendered as the `statistics`
member of the export JSON. `totalVolume` is the nested `reduce` sum;
`avgVolume` is `Math.round(totalVolume / trendData.length)` (`NaN` on an
empty list, which `JSON.stringify` renders as `null`); `peakVolume` is
`Math.max(...flatMap)` (`null` for the same reason when every series is
empty); `peakDate` looks up the timestamp at `indexOf(peakVolume)` inside
the first trend containing the peak (`null` when there is no such trend,
and dropped when the timestamp index is out of range, since the value is
then `undefined`); `peakKeyword` is dropped when there is no peak
trend. -/
noncomputable def overallStatsJson (trendData : List DetailedTrendData) : Json :=
  let totalVolume :=
    trendData.foldl (fun sum trend => sum + sumList trend.search_volume) 0
  let avgVolume : Json :=
    if trendData.length = 0 then Json.null
    else Json.num ((⌊totalVolume / (trendData.length : ℝ) + 1 / 2⌋ : ℤ) : ℝ)
  match (trendData.flatMap (fun trend => trend.search_volume)).max? with
  | none =>
      Json.obj
        [("totalVolume", Json.num totalVolume), ("avgVolume", avgVolume),
         ("peakVolume", Json.null), ("peakDate", Json.null)]
  | some peakVolume =>
      match trendData.find? (fun trend => decide (peakVolume ∈ trend.search_volume)) with
      | none =>
          Json.obj
            [("totalVolume", Json.num totalVolume), ("avgVolume", avgVolume),
             ("peakVolume", Json.num peakVolume), ("peakDate", Json.null)]
      | some peakTrend =>
          Json.obj
            ([("totalVolume", Json.num totalVolume), ("avgVolume", avgVolume),
              ("peakVolume", Json.num peakVolume)] ++
             (match peakTrend.timestamps.get? (peakTrend.search_volume.indexOf peakVolume) with
              | some d => [("peakDate", Json.str d)]
              | none => []) ++
             [("peakKeyword", Json.str peakTrend.keyword)])

/-- The `exportData` object built by `exportAnalysis`, as the JSON value
produced by `JSON.stringify(exportData, null, 2)`. -/
noncomputable def exportAnalysisJson (analysis : Analysis)
    (trendData : List DetailedTrendData) (insights : List TrendInsight) : Json :=
  Json.obj
    [("analysis", Json.obj
        [("id", Json.num (analysis.id : ℝ)),
         ("keywords", Json.arr (analysis.keywords.map Json.str)),
         ("created_at", Json.str analysis.created_at),
         ("timeframe", Json.str analysis.timeframe),
         ("geo", Json.str analysis.geo)]),
     ("statistics", overallStatsJson trendData),
     ("trends", Json.arr (trendData.map exportTrendEntry)),
     ("insights", Json.arr ((insights.take 10).map TrendInsight.toJson))]

/-- Modelled from the spec: missing from `src/` are the JavaScript
runtime built-ins `JSON.stringify` and `JSON.parse` through which the
export artifact round-trips; the spec states that re-parsing the
serialized artifact yields the same data, so the round-trip is modelled
at the level of JSON values as the identity. -/
def jsonRoundTrip (j : Json) : Json := j

/-- Object-field lookup on a re-parsed JSON value. -/
def Json.getField (j : Json) (key : String) : Option Json :=
  match j with
  | Json.obj fields => (fields.find? (fun kv => kv.fst == key)).map (fun kv => kv.snd)
  | _ => none

/-- Read every element of a re-parsed JSON array with the same reader,
failing if any element fails. -/
def readAll {γ : Type} (reader : Json → Option γ) : List Json → Option (List γ)
  | [] => some []
  | j :: rest =>
      match reader j, readAll reader rest with
      | some v, some vs => some (v :: vs)
      | _, _ => none

/-- The keyword recorded in one re-parsed `trends` entry. -/
def readKeyword (entry : Json) : Option String :=
  match entry.getField "keyword" with
  | some (Json.str s) => some s
  | _ => none

/-- The total volume recorded in one re-parsed `trends` entry. -/
def readTotalVolume (entry : Json) : Option ℝ :=
  match entry.getField "total_volume" with
  | some (Json.num x) => some x
  | _ => none

/-- The pattern classification recorded in one re-parsed `trends` entry:
`some none` when the entry carries no `pattern` member. -/
def readPatternType (entry : Json) : Option (Option String) :=
  match entry.getField "pattern" with
  | some p =>
      match p.getField "trend_type" with
      | some (Json.str s) => some (some s)
      | _ => none
  | none => some none

/-- The keywords of the `trends` array of a re-parsed export artifact. -/
def exportedKeywords (artifact : Json) : Option (List String) :=
  match artifact.getField "trends" with
  | some (Json.arr entries) => readAll readKeyword entries
  | _ => none

/-- The per-keyword total volumes of a re-parsed export artifact. -/
def exportedTotalVolumes (artifact : Json) : Option (List ℝ) :=
  match artifact.getField "trends" with
  | some (Json.arr entries) => readAll readTotalVolume entries
  | _ => none

/-- The per-trend pattern classifications of a re-parsed export
artifact. -/
def exportedPatternTypes (artifact : Json) : Option (List (Option String)) :=
  match artifact.getField "trends" with
  | some (Json.arr entries) => readAll readPatternType entries
  | _ => none

lemma readAll_map {α γ : Type} (enc : α → Json) (reader : Json → Option γ)
    (f : α → γ) (hr : ∀ a, reader (enc a) = some (f a)) (l : List α) :
    readAll reader (l.map enc) = some (l.map f) := by
  induction l with
  | nil => rfl
  | cons a t ih => simp [readAll, hr a, ih]

lemma readKeyword_exportTrendEntry (trend : DetailedTrendData) :
    readKeyword (exportTrendEntry trend) = some trend.keyword := rfl

lemma readTotalVolume_exportTrendEntry (trend : DetailedTrendData) :
    readTotalVolume (exportTrendEntry trend) =
      some (sumList trend.search_volume) := rfl

lemma readPatternType_exportTrendEntry (trend : DetailedTrendData) :
    readPatternType (exportTrendEntry trend) =
      some (trend.pattern_analysis.map (fun p => p.trend_type)) := by
  cases hp : trend.pattern_analysis with
  | none =>
      simp only [exportTrendEntry, hp, Option.map_none']
      rfl
  | some p =>
      simp only [exportTrendEntry, hp, Option.map_some']
      rfl

/-- C8: re-parsing the serialized export artifact yields, per trend, the
same keywords, the same total volumes (the sum of `search_volume`) and
the same pattern classifications that were computed at export time. -/
theorem claim8_export_round_trip (analysis : Analysis)
    (trendData : List DetailedTrendData) (insights : List TrendInsight) :
    exportedKeywords (jsonRoundTrip (exportAnalysisJson analysis trendData insights)) =
      some (trendData.map (fun trend => trend.keyword)) ∧
    exportedTotalVolumes (jsonRoundTrip (exportAnalysisJson analysis trendData insights)) =
      some (trendData.map (fun trend => sumList trend.search_volume)) ∧
    exportedPatternTypes (jsonRoundTrip (exportAnalysisJson analysis trendData insights)) =
      some (trendData.map (fun trend =>
        trend.pattern_analysis.map (fun p => p.trend_type))) := by
  have htr : (exportAnalysisJson analysis trendData insights).getField "trends" =
      some (Json.arr (trendData.map exportTrendEntry)) := rfl
  refine ⟨?_, ?_, ?_⟩
  · unfold jsonRoundTrip exportedKeywords
    rw [htr]
    exact readAll_map exportTrendEntry readKeyword (fun trend => trend.keyword)
      readKeyword_exportTrendEntry trendData
  · unfold jsonRoundTrip exportedTotalVolumes
    rw [htr]
    exact readAll_map exportTrendEntry readTotalVolume
      (fun trend => sumList trend.search_volume)
      readTotalVolume_exportTrendEntry trendData
  · unfold jsonRoundTrip exportedPatternTypes
    rw [htr]
    exact readAll_map exportTrendEntry readPatternType
      (fun trend => trend.pattern_analysis.map (fun p => p.trend_type))
      readPatternType_exportTrendEntry trendData

end Trends
